import Mathlib

/-!
Verification of the attendance computation engine of the `ttlattendance`
repository: the session aggregator (rebuildSessionsForDay in
src/pages/ScannerPage.tsx and the per-key loop of recomputeSessionsForRange
in the admin dashboard), the scan verifier (handleScan), and the buffer
configuration provider (getBufferSettings).

Modelling conventions:
* JS numbers are modelled as rationals (ℚ); `Number(x.toFixed(2))` is
  modelled by `round2` (round half up at two decimals, which agrees with
  the ECMAScript rounding on the non-negative values arising here).
* Timestamps (`Date.getTime()`) are modelled as natural numbers of
  milliseconds since the epoch.  The business time zone
  "Asia/Kuala_Lumpur" is a fixed UTC+8 offset with no daylight saving,
  so `getTimeMinutes` is pure modular arithmetic on the timestamp.
* Firestore documents fetched by a query are modelled as the list of
  records the query returns, in the query's order.
* A missing optional field of a document is modelled with `Option`.
-/

namespace TTL

/-- `scanType` values of an attendance log. -/
inductive ScanKind where
  | checkIn
  | checkOut
deriving DecidableEq, Repr

/-- One `attendance` document as read by the aggregators
(success-status log for one user and day).  `scanType` is optional in the
source (`scanType?: "check-in" | "check-out"`), hence `Option`. -/
structure ScanLog where
  scanType : Option ScanKind
  scanTimeMs : ℕ
  siteId : String
  siteName : String
  userEmail : String
  isDeleted : Bool
deriving DecidableEq, Repr

/-- `getTimeMinutes` (src/lib/utils.ts) for the fixed business time zone
Asia/Kuala_Lumpur = UTC+8: hour*60 + minute of the local wall clock. -/
def getTimeMinutes (ms : ℕ) : ℕ := (ms / 60000 + 8 * 60) % 1440

/-- `Number(x.toFixed(2))`: round to two decimal places. -/
def round2 (q : ℚ) : ℚ := (round (q * 100) : ℤ) / 100

/-- The four buffer thresholds (minutes); stored Firestore values are
arbitrary JS numbers, hence ℚ. -/
structure BufferSettings where
  lateBufferMinutes : ℚ
  earlyCheckoutBufferMinutes : ℚ
  otEarlyBufferMinutes : ℚ
  otLateBufferMinutes : ℚ
deriving DecidableEq, Repr

/-- `DEFAULT_BUFFER_SETTINGS` (both call sites declare the same values). -/
def DEFAULT_BUFFER_SETTINGS : BufferSettings :=
  { lateBufferMinutes := 5
    earlyCheckoutBufferMinutes := 5
    otEarlyBufferMinutes := 15
    otLateBufferMinutes := 60 }

/-- The slice of `UserProfile` consumed by the aggregators.  `name` is
modelled as optional to mirror the defensive `?? "User"` in the source;
`normalRate`/`otRate` are optional fields (`normalRate?: number`). -/
structure UserProfile where
  name : Option String
  email : String
  normalRate : Option ℚ
  otRate : Option ℚ
deriving DecidableEq, Repr

/-- The persisted `attendanceSessions` document fields (the
`searchPrefixes` index field is outside the modelled shape). -/
structure Session where
  userId : String
  userEmail : String
  userName : String
  siteId : Option String
  siteName : Option String
  siteInId : Option String
  siteInName : Option String
  siteOutId : Option String
  siteOutName : Option String
  dateKey : String
  checkInTime : Option ℕ
  checkOutTime : Option ℕ
  totalHours : Option ℚ
  normalHours : Option ℚ
  otHours : Option ℚ
  normalRate : ℚ
  otRate : ℚ
  amountRM : Option ℚ
  status : String
  isLate : Bool
  lateReason : Option String
  lateNote : Option String
  isAbnormal : Bool
  abnormalReasons : List String
  abnormalNote : Option String
deriving DecidableEq, Repr

/-! ### The aggregation core

The block of code between the check-in/check-out partition and the
construction of the session document is character-for-character identical
in `rebuildSessionsForDay` (ScannerPage.tsx 151–258) and in the per-key
loop of `recomputeSessionsForRange` (admin dashboard 467–574); it is
embedded once, as the helper functions below. -/

/-- `const checkIns = logs.filter((log) => log.scanType === "check-in")`. -/
def checkInsOf (logs : List ScanLog) : List ScanLog :=
  logs.filter (fun l => l.scanType = some ScanKind.checkIn)

/-- `const checkOuts = logs.filter((log) => log.scanType === "check-out")`. -/
def checkOutsOf (logs : List ScanLog) : List ScanLog :=
  logs.filter (fun l => l.scanType = some ScanKind.checkOut)

/-- `checkIns.reduce((prev, next) => prev.scanTime <= next.scanTime ? prev : next)`,
`null` on an empty subset. -/
def firstCheckInOf (logs : List ScanLog) : Option ScanLog :=
  match checkInsOf logs with
  | [] => none
  | x :: xs =>
      some (xs.foldl
        (fun prev next => if prev.scanTimeMs ≤ next.scanTimeMs then prev else next) x)

/-- `checkOuts.reduce((prev, next) => prev.scanTime >= next.scanTime ? prev : next)`,
`null` on an empty subset. -/
def lastCheckOutOf (logs : List ScanLog) : Option ScanLog :=
  match checkOutsOf logs with
  | [] => none
  | x :: xs =>
      some (xs.foldl
        (fun prev next => if prev.scanTimeMs ≥ next.scanTimeMs then prev else next) x)

/-- `checkInTime` (timestamp of the first check-in, if any). -/
def checkInMsOf (logs : List ScanLog) : Option ℕ :=
  (firstCheckInOf logs).map (·.scanTimeMs)

/-- `checkOutTime` (timestamp of the last check-out, if any). -/
def checkOutMsOf (logs : List ScanLog) : Option ℕ :=
  (lastCheckOutOf logs).map (·.scanTimeMs)

/-- `checkInMinutes = checkInTime ? getTimeMinutes(checkInTime) : null`. -/
def checkInMinutesOf (logs : List ScanLog) : Option ℕ :=
  (checkInMsOf logs).map getTimeMinutes

/-- `checkOutMinutes = checkOutTime ? getTimeMinutes(checkOutTime) : null`. -/
def checkOutMinutesOf (logs : List ScanLog) : Option ℕ :=
  (checkOutMsOf logs).map getTimeMinutes

/-- `totalHoursRaw = checkInTime && checkOutTime
? Math.max((checkOutTime.getTime() - checkInTime.getTime()) / 36e5, 0) : null`. -/
def totalHoursRawOf (logs : List ScanLog) : Option ℚ :=
  match checkInMsOf logs, checkOutMsOf logs with
  | some i, some o => some (max (((o : ℚ) - (i : ℚ)) / 3600000) 0)
  | _, _ => none

/-- `totalHoursAdjusted` (early-checkout padding) followed by
`Number(totalHoursAdjusted.toFixed(2))`: if the checkout minutes fall in
`[17*60 - earlyCheckoutBufferMinutes, 17*60]`, add
`Math.max(17*60 - checkOutMinutes, 0) / 60` hours before rounding. -/
def totalHoursOf (cfg : BufferSettings) (logs : List ScanLog) : Option ℚ :=
  match totalHoursRawOf logs, checkOutMinutesOf logs with
  | some t, some m =>
      if (17 * 60 : ℚ) - cfg.earlyCheckoutBufferMinutes ≤ (m : ℚ) ∧ (m : ℚ) ≤ (17 * 60 : ℚ)
      then some (round2 (t + (max ((17 * 60 : ℚ) - (m : ℚ)) 0) / 60))
      else some (round2 t)
  | some t, none => some (round2 t)
  | none, _ => none

/-- `isLate = checkInMinutes !== null && checkInMinutes > 8*60 + lateBufferMinutes`. -/
def isLateOf (cfg : BufferSettings) (logs : List ScanLog) : Bool :=
  match checkInMinutesOf logs with
  | some m => decide ((8 * 60 : ℚ) + cfg.lateBufferMinutes < (m : ℚ))
  | none => false

/-- The `lateReason` template string. -/
def mkLateReason (q : ℚ) : String :=
  "Check-in after 8:00 + " ++ toString q ++ " min"

/-- `lateReason = isLate ? ... : null`. -/
def lateReasonOf (cfg : BufferSettings) (logs : List ScanLog) : Option String :=
  if isLateOf cfg logs then some (mkLateReason cfg.lateBufferMinutes) else none

/-- The `abnormalReasons` accumulator, in source push order: missing
check-in, missing check-out, rounded total hours below 9, checkout
minutes beyond `22*60 + otLateBufferMinutes`. -/
def abnormalReasonsOf (cfg : BufferSettings) (logs : List ScanLog) : List String :=
  (if checkInMsOf logs = none then ["Missing check-in"] else []) ++
  (if checkOutMsOf logs = none then ["Missing check-out"] else []) ++
  (match totalHoursOf cfg logs with
   | some t => if t < 9 then ["Total hours < 9"] else []
   | none => []) ++
  (match checkOutMinutesOf logs with
   | some m =>
       if (22 * 60 : ℚ) + cfg.otLateBufferMinutes < (m : ℚ)
       then ["Checkout after 10pm"] else []
   | none => [])

/-- `effectiveOtCheckoutMinutes`: snapped to `22*60` inside
`[22*60 - otEarlyBufferMinutes, 22*60 + otLateBufferMinutes]`. -/
def effectiveOtCheckoutOf (cfg : BufferSettings) (logs : List ScanLog) : Option ℚ :=
  match checkOutMinutesOf logs with
  | some m =>
      if (22 * 60 : ℚ) - cfg.otEarlyBufferMinutes ≤ (m : ℚ) ∧
         (m : ℚ) ≤ (22 * 60 : ℚ) + cfg.otLateBufferMinutes
      then some (22 * 60 : ℚ)
      else some (m : ℚ)
  | none => none

/-- `otHours`: 0 unless the rounded total is known and at least 9 and the
effective checkout is known; then 4 from `22*60`, else 2 from `19*60`. -/
def otHoursOf (cfg : BufferSettings) (logs : List ScanLog) : ℚ :=
  match totalHoursOf cfg logs, effectiveOtCheckoutOf cfg logs with
  | some t, some e =>
      if 9 ≤ t then
        (if (22 * 60 : ℚ) ≤ e then 4 else if (19 * 60 : ℚ) ≤ e then 2 else 0)
      else 0
  | _, _ => 0

/-- `isAbnormal = abnormalReasons.length > 0`. -/
def isAbnormalOf (cfg : BufferSettings) (logs : List ScanLog) : Bool :=
  !(abnormalReasonsOf cfg logs).isEmpty

/-- `normalHours = !isAbnormal && totalHoursRounded !== null
? Number(Math.min(totalHoursRounded, 9).toFixed(2)) : null`. -/
def normalHoursOf (cfg : BufferSettings) (logs : List ScanLog) : Option ℚ :=
  match totalHoursOf cfg logs with
  | some t => if isAbnormalOf cfg logs then none else some (round2 (min t 9))
  | none => none

/-- `otHoursRounded = !isAbnormal ? otHours : null`. -/
def otHoursRoundedOf (cfg : BufferSettings) (logs : List ScanLog) : Option ℚ :=
  if isAbnormalOf cfg logs then none else some (otHoursOf cfg logs)

/-- `amountRM = isAbnormal ? null :
Number(((normalHours ?? 0) * normalRate + (otHoursRounded ?? 0) * otRate).toFixed(2))`. -/
def amountRMOf (cfg : BufferSettings) (normalRate otRate : ℚ)
    (logs : List ScanLog) : Option ℚ :=
  if isAbnormalOf cfg logs then none
  else some (round2
    ((normalHoursOf cfg logs).getD 0 * normalRate +
     (otHoursRoundedOf cfg logs).getD 0 * otRate))

/-- `status = checkInTime && checkOutTime ? "complete" : "incomplete"`. -/
def statusOf (logs : List ScanLog) : String :=
  match checkInMsOf logs, checkOutMsOf logs with
  | some _, some _ => "complete"
  | _, _ => "incomplete"

/-- The session document passed to `batch.set` by both call sites (modulo
the index field), assembled from the shared core above. -/
def sessionCore (cfg : BufferSettings) (userId userEmail userName : String)
    (normalRate otRate : ℚ) (dateKey : String) (logs : List ScanLog) : Session :=
  { userId := userId
    userEmail := userEmail
    userName := userName
    siteId :=
      match (firstCheckInOf logs).map (·.siteId) with
      | some s => some s
      | none => (lastCheckOutOf logs).map (·.siteId)
    siteName :=
      match (firstCheckInOf logs).map (·.siteName) with
      | some s => some s
      | none => (lastCheckOutOf logs).map (·.siteName)
    siteInId := (firstCheckInOf logs).map (·.siteId)
    siteInName := (firstCheckInOf logs).map (·.siteName)
    siteOutId := (lastCheckOutOf logs).map (·.siteId)
    siteOutName := (lastCheckOutOf logs).map (·.siteName)
    dateKey := dateKey
    checkInTime := checkInMsOf logs
    checkOutTime := checkOutMsOf logs
    totalHours := totalHoursOf cfg logs
    normalHours := normalHoursOf cfg logs
    otHours := otHoursRoundedOf cfg logs
    normalRate := normalRate
    otRate := otRate
    amountRM := amountRMOf cfg normalRate otRate logs
    status := statusOf logs
    isLate := isLateOf cfg logs
    lateReason := lateReasonOf cfg logs
    lateNote := none
    isAbnormal := isAbnormalOf cfg logs
    abnormalReasons := abnormalReasonsOf cfg logs
    abnormalNote := none }

/-! ### The two call sites -/

/-- `rebuildSessionsForDay` (ScannerPage.tsx 128–307): the fetched logs
(success logs of the user and day, ascending scan time) are filtered by
`!log.isDeleted`, the user fields come from the authenticated profile. -/
def rebuildSessionForDay (profile : UserProfile) (userId dateKey : String)
    (cfg : BufferSettings) (fetchedLogs : List ScanLog) : Session :=
  let logs := fetchedLogs.filter (fun l => !l.isDeleted)
  sessionCore cfg userId profile.email (profile.name.getD "User")
    (profile.normalRate.getD 0) (profile.otRate.getD 0) dateKey logs

/-- Stable insertion of a log into a scan-time-sorted list (earlier
original index first among equal times), modelling the stable
`list.sort((a, b) => a.scanTime.getTime() - b.scanTime.getTime())`. -/
def insertByTime (x : ScanLog) : List ScanLog → List ScanLog
  | [] => [x]
  | y :: ys =>
      if x.scanTimeMs ≤ y.scanTimeMs then x :: y :: ys else y :: insertByTime x ys

/-- Stable sort by scan time. -/
def sortByTime : List ScanLog → List ScanLog
  | [] => []
  | x :: xs => insertByTime x (sortByTime xs)

/-- One iteration of the per-key loop of `recomputeSessionsForRange`
(admin dashboard 402–622) for the key `(userId, dateKey)`: grouping skips
deleted logs and defaults a missing `scanType` to `"check-in"`, the list
is sorted by scan time, and the user fields come from the admin user map
(`userItem`), with the first grouped log's email as fallback. -/
def recomputeSessionForKey (userItem : Option UserProfile) (userId dateKey : String)
    (cfg : BufferSettings) (fetchedLogs : List ScanLog) : Session :=
  let grouped := (fetchedLogs.filter (fun l => !l.isDeleted)).map
    (fun l => { l with scanType := some (l.scanType.getD ScanKind.checkIn) })
  let list := sortByTime grouped
  let userName := (userItem.bind (fun u => u.name)).getD "User"
  let userEmail :=
    match userItem with
    | some u => u.email
    | none => ((list.head?).map (·.userEmail)).getD ""
  let normalRate := (userItem.bind (fun u => u.normalRate)).getD 0
  let otRate := (userItem.bind (fun u => u.otRate)).getD 0
  sessionCore cfg userId userEmail userName normalRate otRate dateKey list

/-! ### The session store replacement (step 12) -/

/-- The per-key replacement both call sites perform in one write batch:
every `attendanceSessions` document with the key is deleted and the one
freshly built session is inserted; `batch.commit()` applies this as a
single atomic batch, modelled as this single store transformation. -/
def replaceSessionForKey (store : List Session) (userId dateKey : String)
    (s : Session) : List Session :=
  store.filter (fun t => !(t.userId = userId && t.dateKey = dateKey)) ++ [s]

/-- `rebuildSessionsForDay` including its store effect. -/
def runRebuildSessionsForDay (store : List Session) (profile : UserProfile)
    (userId dateKey : String) (cfg : BufferSettings)
    (fetchedLogs : List ScanLog) : List Session :=
  replaceSessionForKey store userId dateKey
    (rebuildSessionForDay profile userId dateKey cfg fetchedLogs)

/-- One key of `recomputeSessionsForRange` including its store effect. -/
def runRecomputeSessionForKey (store : List Session) (userItem : Option UserProfile)
    (userId dateKey : String) (cfg : BufferSettings)
    (fetchedLogs : List ScanLog) : List Session :=
  replaceSessionForKey store userId dateKey
    (recomputeSessionForKey userItem userId dateKey cfg fetchedLogs)

/-! ### The buffer configuration provider -/

/-- A raw Firestore field value as seen through
`typeof value === "number" && !Number.isNaN(value)`. -/
inductive JsVal where
  | num (q : ℚ)
  | nan
  | nonNumber
deriving DecidableEq, Repr

/-- The raw `settings/global` document; an absent document is the record
with every field `none` (the source substitutes `{}` for it). -/
structure RawSettings where
  lateBufferMinutes : Option JsVal
  earlyCheckoutBufferMinutes : Option JsVal
  otEarlyBufferMinutes : Option JsVal
  otLateBufferMinutes : Option JsVal
deriving DecidableEq, Repr

/-- `normalize = (value, fallback) =>
typeof value === "number" && !Number.isNaN(value) ? value : fallback`. -/
def normalizeSetting (value : Option JsVal) (fallback : ℚ) : ℚ :=
  match value with
  | some (JsVal.num q) => q
  | _ => fallback

/-- `getBufferSettings` (identical in ScannerPage.tsx 102–126 and the
admin dashboard): each field of the stored document normalized against
its default. -/
def getBufferSettings (data : RawSettings) : BufferSettings :=
  { lateBufferMinutes :=
      normalizeSetting data.lateBufferMinutes DEFAULT_BUFFER_SETTINGS.lateBufferMinutes
    earlyCheckoutBufferMinutes :=
      normalizeSetting data.earlyCheckoutBufferMinutes
        DEFAULT_BUFFER_SETTINGS.earlyCheckoutBufferMinutes
    otEarlyBufferMinutes :=
      normalizeSetting data.otEarlyBufferMinutes DEFAULT_BUFFER_SETTINGS.otEarlyBufferMinutes
    otLateBufferMinutes :=
      normalizeSetting data.otLateBufferMinutes DEFAULT_BUFFER_SETTINGS.otLateBufferMinutes }

/-! ### The scan verifier -/

/-- JS `String.prototype.trim`: strip leading and trailing whitespace. -/
def jsTrim (s : List Char) : List Char :=
  ((s.dropWhile Char.isWhitespace).reverse.dropWhile Char.isWhitespace).reverse

/-- JS `String.prototype.toLowerCase` (the site names here are ASCII). -/
def jsToLower (s : List Char) : List Char := s.map Char.toLower

/-- `normalizeSiteName` whitespace collapsing (`replace(/\s+/g, " ")`):
every maximal whitespace run becomes a single space. -/
def collapseWsAux : List Char → Bool → List Char
  | [], _ => []
  | c :: cs, prevWs =>
      if c.isWhitespace then
        (if prevWs then collapseWsAux cs true else ' ' :: collapseWsAux cs true)
      else c :: collapseWsAux cs false

/-- `normalizeSiteName = value.trim().toLowerCase().replace(/\s+/g, " ")`
(src/lib/utils.ts). -/
def normalizeSiteName (value : String) : String :=
  String.mk (collapseWsAux (jsToLower (jsTrim value.data)) false)

/-- A `sites` document as used by `handleScan`. -/
structure SiteItem where
  id : String
  name : String
  lat : ℚ
  lng : ℚ
  allowedRadiusMeters : ℚ
deriving DecidableEq, Repr

/-- The toggle determination of `handleScan` (ScannerPage.tsx 390–406):
from the ten most recent success logs of (user, site, dateKey) in
descending scan-time order, the most recent non-deleted one decides the
kind; a missing `scanType` on it defaults to check-in. -/
def decideScanType (logsDesc : List ScanLog) : ScanKind :=
  let lastLog := (logsDesc.take 10).find? (fun l => !l.isDeleted)
  match lastLog with
  | none => ScanKind.checkIn
  | some l =>
      if l.scanType.getD ScanKind.checkIn = ScanKind.checkOut
      then ScanKind.checkIn else ScanKind.checkOut

/-- An `attendance` document written by one `handleScan` invocation. -/
inductive WrittenEvent where
  | failEvent (reason : String) (site : Option SiteItem)
      (distanceMeters : Option ℚ) (hasCoords : Bool)
  | successEvent (kind : ScanKind) (site : SiteItem) (distanceMeters : ℚ)
deriving DecidableEq, Repr

/-- The environment one `handleScan` invocation runs against: the guard
states, the decoded token, the outcome of each awaited external step, and
whether the 15 s timeout fires while a given step is in flight. -/
structure ScanEnv where
  hasUserProfile : Bool
  alreadyProcessing : Bool
  rawValue : String
  cancelledDuringSiteQuery : Bool
  siteLookup : Option SiteItem
  geoOk : Bool
  geoErrorMessage : String
  cancelledDuringGeolocation : Bool
  measuredDistance : ℚ
  cancelledDuringDailyQuery : Bool
  dailyLogsDesc : List ScanLog
  successWriteOk : Bool
  storageErrorMessage : String
  failLogWriteOk : Bool
deriving Repr

/-- One `logAttendanceFailure` attempt: the document is written only when
the log store accepts the write (a failed attempt is swallowed by the
caller and never retried against a store that stays down). -/
def failWrites (env : ScanEnv) (e : WrittenEvent) : List WrittenEvent :=
  if env.failLogWriteOk then [e] else []

/-- The `attendance` documents written by one `handleScan` invocation
(ScannerPage.tsx 309–482), following the source's control flow: guard
returns, normalization, site lookup, geolocation, geofence check, toggle
query, success write, with the `if (cancelled) return` checks after the
site query, the geolocation acquisition and the toggle query, and the
catch-block failure log for geolocation and storage errors. -/
def handleScanWrites (env : ScanEnv) : List WrittenEvent :=
  if !env.hasUserProfile then []
  else if env.alreadyProcessing then []
  else if normalizeSiteName env.rawValue = "" then
    failWrites env (WrittenEvent.failEvent "Invalid QR code." none none false)
  else if env.cancelledDuringSiteQuery then []
  else
    match env.siteLookup with
    | none => failWrites env (WrittenEvent.failEvent "Site not found." none none false)
    | some site =>
        if !env.geoOk then
          (if env.cancelledDuringGeolocation then []
           else failWrites env (WrittenEvent.failEvent env.geoErrorMessage (some site) none false))
        else if env.cancelledDuringGeolocation then []
        else if site.allowedRadiusMeters < env.measuredDistance then
          failWrites env
            (WrittenEvent.failEvent "Outside allowed radius." (some site)
              (some env.measuredDistance) true)
        else if env.cancelledDuringDailyQuery then []
        else if env.successWriteOk then
          [WrittenEvent.successEvent (decideScanType env.dailyLogsDesc) site
            env.measuredDistance]
        else
          failWrites env
            (WrittenEvent.failEvent env.storageErrorMessage (some site) none false)

end TTL

namespace TTL

/-! ## Supporting lemmas -/

lemma rebuildSessionForDay_userId (p : UserProfile) (uid dk : String)
    (cfg : BufferSettings) (logs : List ScanLog) :
    (rebuildSessionForDay p uid dk cfg logs).userId = uid := rfl

lemma rebuildSessionForDay_dateKey (p : UserProfile) (uid dk : String)
    (cfg : BufferSettings) (logs : List ScanLog) :
    (rebuildSessionForDay p uid dk cfg logs).dateKey = dk := rfl

lemma recomputeSessionForKey_userId (u : Option UserProfile) (uid dk : String)
    (cfg : BufferSettings) (logs : List ScanLog) :
    (recomputeSessionForKey u uid dk cfg logs).userId = uid := rfl

lemma recomputeSessionForKey_dateKey (u : Option UserProfile) (uid dk : String)
    (cfg : BufferSettings) (logs : List ScanLog) :
    (recomputeSessionForKey u uid dk cfg logs).dateKey = dk := rfl

lemma filter_replaceSessionForKey (store : List Session) (uid dk : String)
    (s : Session) (h1 : s.userId = uid) (h2 : s.dateKey = dk) :
    (replaceSessionForKey store uid dk s).filter
      (fun t => t.userId = uid && t.dateKey = dk) = [s] := by
  subst h1; subst h2
  unfold replaceSessionForKey
  rw [List.filter_append, List.filter_filter]
  simp

lemma replaceSessionForKey_idem (store : List Session) (uid dk : String)
    (s : Session) (h1 : s.userId = uid) (h2 : s.dateKey = dk) :
    replaceSessionForKey (replaceSessionForKey store uid dk s) uid dk s =
      replaceSessionForKey store uid dk s := by
  subst h1; subst h2
  unfold replaceSessionForKey
  rw [List.filter_append, List.filter_filter]
  simp

lemma totalHoursRawOf_none_left {logs : List ScanLog} (h : checkInMsOf logs = none) :
    totalHoursRawOf logs = none := by
  unfold totalHoursRawOf
  rw [h]

lemma totalHoursRawOf_none_right {logs : List ScanLog} (h : checkOutMsOf logs = none) :
    totalHoursRawOf logs = none := by
  unfold totalHoursRawOf
  rw [h]
  cases checkInMsOf logs <;> rfl

lemma totalHoursRawOf_eq_some {logs : List ScanLog} {i o : ℕ}
    (h1 : checkInMsOf logs = some i) (h2 : checkOutMsOf logs = some o) :
    totalHoursRawOf logs = some (max (((o : ℚ) - (i : ℚ)) / 3600000) 0) := by
  unfold totalHoursRawOf
  rw [h1, h2]

lemma totalHoursOf_of_raw_none {cfg : BufferSettings} {logs : List ScanLog}
    (h : totalHoursRawOf logs = none) : totalHoursOf cfg logs = none := by
  unfold totalHoursOf
  rw [h]

lemma effectiveOtCheckoutOf_none {cfg : BufferSettings} {logs : List ScanLog}
    (h : checkOutMinutesOf logs = none) : effectiveOtCheckoutOf cfg logs = none := by
  unfold effectiveOtCheckoutOf
  rw [h]

lemma mem_reasons_missing_checkin (cfg : BufferSettings) (logs : List ScanLog) :
    "Missing check-in" ∈ abnormalReasonsOf cfg logs ↔ checkInMsOf logs = none := by
  unfold abnormalReasonsOf
  repeat' split <;> simp_all

lemma mem_reasons_missing_checkout (cfg : BufferSettings) (logs : List ScanLog) :
    "Missing check-out" ∈ abnormalReasonsOf cfg logs ↔ checkOutMsOf logs = none := by
  unfold abnormalReasonsOf
  repeat' split <;> simp_all

lemma mem_reasons_short_day (cfg : BufferSettings) (logs : List ScanLog) :
    "Total hours < 9" ∈ abnormalReasonsOf cfg logs ↔
      ∃ t : ℚ, totalHoursOf cfg logs = some t ∧ t < 9 := by
  unfold abnormalReasonsOf
  repeat' split <;> simp_all

lemma mem_reasons_late_checkout (cfg : BufferSettings) (logs : List ScanLog) :
    "Checkout after 10pm" ∈ abnormalReasonsOf cfg logs ↔
      ∃ m : ℕ, checkOutMinutesOf logs = some m ∧
        (22 * 60 : ℚ) + cfg.otLateBufferMinutes < (m : ℚ) := by
  unfold abnormalReasonsOf
  repeat' split <;> simp_all

lemma reasons_subset (cfg : BufferSettings) (logs : List ScanLog) :
    ∀ r ∈ abnormalReasonsOf cfg logs,
      r = "Missing check-in" ∨ r = "Missing check-out" ∨
      r = "Total hours < 9" ∨ r = "Checkout after 10pm" := by
  intro r hr
  unfold abnormalReasonsOf at hr
  simp only [List.mem_append] at hr
  rcases hr with ((h | h) | h) | h
  · by_cases hc : checkInMsOf logs = none <;> simp [hc] at h <;> simp [h]
  · by_cases hc : checkOutMsOf logs = none <;> simp [hc] at h <;> simp [h]
  · cases ht : totalHoursOf cfg logs <;> rw [ht] at h <;> (try split at h) <;> simp_all
  · cases hm : checkOutMinutesOf logs <;> rw [hm] at h <;> (try split at h) <;> simp_all

lemma isAbnormalOf_true_iff {cfg : BufferSettings} {logs : List ScanLog} :
    isAbnormalOf cfg logs = true ↔ abnormalReasonsOf cfg logs ≠ [] := by
  unfold isAbnormalOf
  cases h : abnormalReasonsOf cfg logs <;> simp

lemma reasons_nil_facts {cfg : BufferSettings} {logs : List ScanLog}
    (h : abnormalReasonsOf cfg logs = []) :
    ∃ i o : ℕ, checkInMsOf logs = some i ∧ checkOutMsOf logs = some o ∧
      ∃ t : ℚ, totalHoursOf cfg logs = some t ∧ 9 ≤ t := by
  cases hci : checkInMsOf logs with
  | none =>
      have := (mem_reasons_missing_checkin cfg logs).mpr hci
      rw [h] at this
      exact absurd this (List.not_mem_nil _)
  | some i =>
  cases hco : checkOutMsOf logs with
  | none =>
      have := (mem_reasons_missing_checkout cfg logs).mpr hco
      rw [h] at this
      exact absurd this (List.not_mem_nil _)
  | some o =>
      have hm : checkOutMinutesOf logs = some (getTimeMinutes o) := by
        unfold checkOutMinutesOf
        rw [hco]
        rfl
      have hsome : ∃ t : ℚ, totalHoursOf cfg logs = some t := by
        unfold totalHoursOf
        rw [totalHoursRawOf_eq_some hci hco, hm]
        dsimp only
        split <;> exact ⟨_, rfl⟩
      obtain ⟨t, ht⟩ := hsome
      refine ⟨i, o, rfl, rfl, t, ht, ?_⟩
      by_contra h9
      have := (mem_reasons_short_day cfg logs).mpr ⟨t, ht, not_le.mp h9⟩
      rw [h] at this
      exact absurd this (List.not_mem_nil _)

lemma isAbnormalOf_false_of_nil {cfg : BufferSettings} {logs : List ScanLog}
    (h : abnormalReasonsOf cfg logs = []) : isAbnormalOf cfg logs = false := by
  unfold isAbnormalOf
  rw [h]
  rfl

lemma normalHoursOf_none_iff {cfg : BufferSettings} {logs : List ScanLog} :
    normalHoursOf cfg logs = none ↔ abnormalReasonsOf cfg logs ≠ [] := by
  constructor
  · intro hn
    by_contra hnil
    obtain ⟨i, o, hci, hco, t, ht, h9⟩ := reasons_nil_facts hnil
    have hab := isAbnormalOf_false_of_nil hnil
    unfold normalHoursOf at hn
    rw [ht] at hn
    simp [hab] at hn
  · intro hne
    have hab := isAbnormalOf_true_iff.mpr hne
    unfold normalHoursOf
    cases totalHoursOf cfg logs <;> simp [hab]

lemma otHoursRoundedOf_none_iff {cfg : BufferSettings} {logs : List ScanLog} :
    otHoursRoundedOf cfg logs = none ↔ abnormalReasonsOf cfg logs ≠ [] := by
  unfold otHoursRoundedOf
  by_cases hab : isAbnormalOf cfg logs = true
  · simp [hab, isAbnormalOf_true_iff.mp hab]
  · have hnil : abnormalReasonsOf cfg logs = [] := by
      by_contra hne
      exact hab (isAbnormalOf_true_iff.mpr hne)
    simp [hab, hnil]

lemma amountRMOf_none_iff {cfg : BufferSettings} {nr otr : ℚ} {logs : List ScanLog} :
    amountRMOf cfg nr otr logs = none ↔ abnormalReasonsOf cfg logs ≠ [] := by
  unfold amountRMOf
  by_cases hab : isAbnormalOf cfg logs = true
  · simp [hab, isAbnormalOf_true_iff.mp hab]
  · have hnil : abnormalReasonsOf cfg logs = [] := by
      by_contra hne
      exact hab (isAbnormalOf_true_iff.mpr hne)
    simp [hab, hnil]

lemma normalHoursOf_of_nil {cfg : BufferSettings} {logs : List ScanLog} {t : ℚ}
    (hnil : abnormalReasonsOf cfg logs = []) (ht : totalHoursOf cfg logs = some t) :
    normalHoursOf cfg logs = some (round2 (min t 9)) := by
  unfold normalHoursOf
  rw [ht]
  simp [isAbnormalOf_false_of_nil hnil]

lemma otHoursRoundedOf_of_nil {cfg : BufferSettings} {logs : List ScanLog}
    (hnil : abnormalReasonsOf cfg logs = []) :
    otHoursRoundedOf cfg logs = some (otHoursOf cfg logs) := by
  unfold otHoursRoundedOf
  simp [isAbnormalOf_false_of_nil hnil]

lemma round2_nine : round2 (9 : ℚ) = 9 := by
  with_unfolding_all decide

end TTL

namespace TTL

/-! ## Claim theorems -/

/-- C1: after a completed aggregation run for a key (userId, dateKey) —
per-scan rebuild or administrator range recompute — exactly one session
record exists in the store for that key, regardless of how many session
records (zero, one, or duplicates) existed for that key beforehand; the
delete-all/insert-one replacement is the single atomic batch modelled by
`replaceSessionForKey`. -/
theorem aggregation_single_session_per_key (store : List Session)
    (profile : UserProfile) (userItem : Option UserProfile)
    (userId dateKey : String) (cfg : BufferSettings) (fetchedLogs : List ScanLog) :
    ((runRebuildSessionsForDay store profile userId dateKey cfg fetchedLogs).filter
        (fun t => t.userId = userId && t.dateKey = dateKey)).length = 1 ∧
    ((runRecomputeSessionForKey store userItem userId dateKey cfg fetchedLogs).filter
        (fun t => t.userId = userId && t.dateKey = dateKey)).length = 1 := by
  refine ⟨?_, ?_⟩
  · rw [runRebuildSessionsForDay,
      filter_replaceSessionForKey _ _ _ _ (rebuildSessionForDay_userId _ _ _ _ _)
        (rebuildSessionForDay_dateKey _ _ _ _ _)]
    rfl
  · rw [runRecomputeSessionForKey,
      filter_replaceSessionForKey _ _ _ _ (recomputeSessionForKey_userId _ _ _ _ _)
        (recomputeSessionForKey_dateKey _ _ _ _ _)]
    rfl

/-- C6: the aggregator is idempotent — the session built from unchanged
(events, config, rates) is identical on a second run (the build functions
are pure), and re-running the store replacement with it leaves the
persisted state exactly as after the first run, for both call sites. -/
theorem aggregation_idempotent (store : List Session) (profile : UserProfile)
    (userItem : Option UserProfile) (userId dateKey : String)
    (cfg : BufferSettings) (fetchedLogs : List ScanLog) :
    runRebuildSessionsForDay
        (runRebuildSessionsForDay store profile userId dateKey cfg fetchedLogs)
        profile userId dateKey cfg fetchedLogs =
      runRebuildSessionsForDay store profile userId dateKey cfg fetchedLogs ∧
    runRecomputeSessionForKey
        (runRecomputeSessionForKey store userItem userId dateKey cfg fetchedLogs)
        userItem userId dateKey cfg fetchedLogs =
      runRecomputeSessionForKey store userItem userId dateKey cfg fetchedLogs := by
  refine ⟨?_, ?_⟩
  · exact replaceSessionForKey_idem _ _ _ _ (rebuildSessionForDay_userId _ _ _ _ _)
      (rebuildSessionForDay_dateKey _ _ _ _ _)
  · exact replaceSessionForKey_idem _ _ _ _ (recomputeSessionForKey_userId _ _ _ _ _)
      (recomputeSessionForKey_dateKey _ _ _ _ _)

/-- C4: totalHoursRaw is max(0, (checkOut − checkIn) in hours) when both
endpoints exist and null when either is missing; a checkout in
[17:00 − earlyCheckoutBufferMinutes, 17:00] adds (17:00 − checkout)/60
hours; the stored totalHours is the result rounded to 2 decimals. -/
theorem total_hours_rule (cfg : BufferSettings) (logs : List ScanLog) :
    (checkInMsOf logs = none ∨ checkOutMsOf logs = none →
      totalHoursRawOf logs = none ∧ totalHoursOf cfg logs = none) ∧
    (∀ i o : ℕ, checkInMsOf logs = some i → checkOutMsOf logs = some o →
      totalHoursRawOf logs = some (max (((o : ℚ) - (i : ℚ)) / 3600000) 0)) ∧
    (∀ i o m : ℕ, checkInMsOf logs = some i → checkOutMsOf logs = some o →
      checkOutMinutesOf logs = some m →
      totalHoursOf cfg logs = some (round2 (max (((o : ℚ) - (i : ℚ)) / 3600000) 0 +
        (if (17 * 60 : ℚ) - cfg.earlyCheckoutBufferMinutes ≤ (m : ℚ) ∧ (m : ℚ) ≤ (17 * 60 : ℚ)
         then ((17 * 60 : ℚ) - (m : ℚ)) / 60 else 0)))) := by
  refine ⟨?_, ?_, ?_⟩
  · intro h
    have hraw : totalHoursRawOf logs = none := by
      rcases h with h | h
      · exact totalHoursRawOf_none_left h
      · exact totalHoursRawOf_none_right h
    exact ⟨hraw, totalHoursOf_of_raw_none hraw⟩
  · intro i o h1 h2
    exact totalHoursRawOf_eq_some h1 h2
  · intro i o m h1 h2 h3
    unfold totalHoursOf
    rw [totalHoursRawOf_eq_some h1 h2, h3]
    dsimp only
    by_cases hc : (17 * 60 : ℚ) - cfg.earlyCheckoutBufferMinutes ≤ (m : ℚ) ∧ (m : ℚ) ≤ (17 * 60 : ℚ)
    · rw [if_pos hc, if_pos hc,
        max_eq_left (by linarith [hc.2] : (0 : ℚ) ≤ (17 * 60 : ℚ) - (m : ℚ))]
    · rw [if_neg hc, if_neg hc, add_zero]

/-- Witness for C4 (scenario B, early-checkout padding): check-in 08:00,
check-out 16:58 (minute 1018 of the day, inside [1015, 1020]). -/
theorem total_hours_rule_witness :
    totalHoursOf DEFAULT_BUFFER_SETTINGS
      [⟨some ScanKind.checkIn, 86400000, "s1", "Site One", "a@b", false⟩,
       ⟨some ScanKind.checkOut, 118680000, "s1", "Site One", "a@b", false⟩] =
    some (round2 (max (((118680000 : ℚ) - (86400000 : ℚ)) / 3600000) 0 +
      (if (17 * 60 : ℚ) - DEFAULT_BUFFER_SETTINGS.earlyCheckoutBufferMinutes ≤ ((1018 : ℕ) : ℚ) ∧
          ((1018 : ℕ) : ℚ) ≤ (17 * 60 : ℚ)
       then ((17 * 60 : ℚ) - ((1018 : ℕ) : ℚ)) / 60 else 0))) :=
  (total_hours_rule DEFAULT_BUFFER_SETTINGS
      [⟨some ScanKind.checkIn, 86400000, "s1", "Site One", "a@b", false⟩,
       ⟨some ScanKind.checkOut, 118680000, "s1", "Site One", "a@b", false⟩]).2.2
    86400000 118680000 1018 (by decide) (by decide) (by decide)

/-- C3: when the checkout is known the effective OT checkout is exactly
22:00 inside [22:00 − otEarlyBufferMinutes, 22:00 + otLateBufferMinutes]
and the actual checkout minutes otherwise; OT hours are 0 unless
totalHours ≥ 9 and the checkout is known, in which case they are 4 from
an effective checkout of 22:00, else 2 from 19:00, else 0. -/
theorem ot_rule (cfg : BufferSettings) (logs : List ScanLog) :
    (∀ m : ℕ, checkOutMinutesOf logs = some m →
      effectiveOtCheckoutOf cfg logs =
        some (if (22 * 60 : ℚ) - cfg.otEarlyBufferMinutes ≤ (m : ℚ) ∧
                 (m : ℚ) ≤ (22 * 60 : ℚ) + cfg.otLateBufferMinutes
              then (22 * 60 : ℚ) else (m : ℚ))) ∧
    (totalHoursOf cfg logs = none → otHoursOf cfg logs = 0) ∧
    (checkOutMinutesOf logs = none → otHoursOf cfg logs = 0) ∧
    (∀ t : ℚ, totalHoursOf cfg logs = some t → t < 9 → otHoursOf cfg logs = 0) ∧
    (∀ t e : ℚ, totalHoursOf cfg logs = some t → 9 ≤ t →
      effectiveOtCheckoutOf cfg logs = some e →
      otHoursOf cfg logs =
        (if (22 * 60 : ℚ) ≤ e then 4 else if (19 * 60 : ℚ) ≤ e then 2 else 0)) := by
  refine ⟨?_, ?_, ?_, ?_, ?_⟩
  · intro m h
    unfold effectiveOtCheckoutOf
    rw [h]
    dsimp only
    by_cases hc : (22 * 60 : ℚ) - cfg.otEarlyBufferMinutes ≤ (m : ℚ) ∧
        (m : ℚ) ≤ (22 * 60 : ℚ) + cfg.otLateBufferMinutes
    · rw [if_pos hc, if_pos hc]
    · rw [if_neg hc, if_neg hc]
  · intro h
    unfold otHoursOf
    rw [h]
  · intro h
    unfold otHoursOf
    rw [effectiveOtCheckoutOf_none h]
    cases totalHoursOf cfg logs <;> rfl
  · intro t ht hlt
    unfold otHoursOf
    rw [ht]
    cases he : effectiveOtCheckoutOf cfg logs with
    | none => rfl
    | some e =>
        dsimp only
        rw [if_neg (not_le.mpr hlt)]
  · intro t e ht h9 he
    unfold otHoursOf
    rw [ht, he]
    dsimp only
    rw [if_pos h9]

set_option maxRecDepth 8000 in
/-- Witness for C3: check-in 08:00, check-out 21:50 (minute 1310, inside
the OT window [21:45, 23:00]), total 13.83 hours ≥ 9, effective checkout
snapped to 22:00, hence 4 OT hours. -/
theorem ot_rule_witness :
    otHoursOf DEFAULT_BUFFER_SETTINGS
      [⟨some ScanKind.checkIn, 86400000, "s1", "Site One", "a@b", false⟩,
       ⟨some ScanKind.checkOut, 136200000, "s1", "Site One", "a@b", false⟩] =
    (if (22 * 60 : ℚ) ≤ (22 * 60 : ℚ) then 4
     else if (19 * 60 : ℚ) ≤ (22 * 60 : ℚ) then 2 else 0) :=
  (ot_rule DEFAULT_BUFFER_SETTINGS
      [⟨some ScanKind.checkIn, 86400000, "s1", "Site One", "a@b", false⟩,
       ⟨some ScanKind.checkOut, 136200000, "s1", "Site One", "a@b", false⟩]).2.2.2.2
    (1383 / 100) (22 * 60)
    (by with_unfolding_all decide) (by norm_num) (by with_unfolding_all decide)

/-- C2: the abnormal-reason list contains exactly the applicable entries
among missing check-in, missing check-out, totalHours < 9 (when known),
and checkout past 22:00 + otLateBufferMinutes; the persisted normalHours,
otHours and amount are null iff that list is non-empty, and otherwise
normalHours = round2(min(totalHours, 9)), otHours is the OT-rule value,
and amount = round2(normalHours·normalRate + otHours·otRate). -/
theorem abnormal_reasons_gate_payroll (cfg : BufferSettings) (uid em nm : String)
    (nr otr : ℚ) (dk : String) (logs : List ScanLog) (s : Session)
    (hs : s = sessionCore cfg uid em nm nr otr dk logs) :
    (("Missing check-in" ∈ s.abnormalReasons ↔ checkInMsOf logs = none) ∧
     ("Missing check-out" ∈ s.abnormalReasons ↔ checkOutMsOf logs = none) ∧
     ("Total hours < 9" ∈ s.abnormalReasons ↔
       ∃ t : ℚ, s.totalHours = some t ∧ t < 9) ∧
     ("Checkout after 10pm" ∈ s.abnormalReasons ↔
       ∃ m : ℕ, checkOutMinutesOf logs = some m ∧
         (22 * 60 : ℚ) + cfg.otLateBufferMinutes < (m : ℚ)) ∧
     (∀ r ∈ s.abnormalReasons,
       r = "Missing check-in" ∨ r = "Missing check-out" ∨
       r = "Total hours < 9" ∨ r = "Checkout after 10pm")) ∧
    ((s.normalHours = none ↔ s.abnormalReasons ≠ []) ∧
     (s.otHours = none ↔ s.abnormalReasons ≠ []) ∧
     (s.amountRM = none ↔ s.abnormalReasons ≠ [])) ∧
    (s.abnormalReasons = [] →
      ∃ t : ℚ, s.totalHours = some t ∧
        s.normalHours = some (round2 (min t 9)) ∧
        s.otHours = some (otHoursOf cfg logs) ∧
        s.amountRM = some (round2 (round2 (min t 9) * nr + otHoursOf cfg logs * otr))) := by
  subst hs
  refine ⟨⟨mem_reasons_missing_checkin cfg logs, mem_reasons_missing_checkout cfg logs,
      mem_reasons_short_day cfg logs, mem_reasons_late_checkout cfg logs,
      reasons_subset cfg logs⟩,
    ⟨normalHoursOf_none_iff, otHoursRoundedOf_none_iff, amountRMOf_none_iff⟩, ?_⟩
  intro hnil
  obtain ⟨i, o, hci, hco, t, ht, h9⟩ := reasons_nil_facts hnil
  have hab := isAbnormalOf_false_of_nil hnil
  refine ⟨t, ht, normalHoursOf_of_nil hnil ht, otHoursRoundedOf_of_nil hnil, ?_⟩
  show amountRMOf cfg nr otr logs = _
  unfold amountRMOf
  rw [normalHoursOf_of_nil hnil ht, otHoursRoundedOf_of_nil hnil]
  simp [hab]

/-- Witness for C2: a normal 9.25-hour day (07:55 to 17:10) with rates
10/20 has an empty abnormal-reason list, so the payroll fields are
computed. -/
theorem abnormal_reasons_gate_payroll_witness :
    ∃ t : ℚ,
      (sessionCore DEFAULT_BUFFER_SETTINGS "u1" "a@b" "A" 10 20 "2026-01-05"
        [⟨some ScanKind.checkIn, 86100000, "s1", "Site One", "a@b", false⟩,
         ⟨some ScanKind.checkOut, 119400000, "s1", "Site One", "a@b", false⟩]).totalHours =
          some t ∧
      (sessionCore DEFAULT_BUFFER_SETTINGS "u1" "a@b" "A" 10 20 "2026-01-05"
        [⟨some ScanKind.checkIn, 86100000, "s1", "Site One", "a@b", false⟩,
         ⟨some ScanKind.checkOut, 119400000, "s1", "Site One", "a@b", false⟩]).normalHours =
          some (round2 (min t 9)) ∧
      (sessionCore DEFAULT_BUFFER_SETTINGS "u1" "a@b" "A" 10 20 "2026-01-05"
        [⟨some ScanKind.checkIn, 86100000, "s1", "Site One", "a@b", false⟩,
         ⟨some ScanKind.checkOut, 119400000, "s1", "Site One", "a@b", false⟩]).otHours =
          some (otHoursOf DEFAULT_BUFFER_SETTINGS
            [⟨some ScanKind.checkIn, 86100000, "s1", "Site One", "a@b", false⟩,
             ⟨some ScanKind.checkOut, 119400000, "s1", "Site One", "a@b", false⟩]) ∧
      (sessionCore DEFAULT_BUFFER_SETTINGS "u1" "a@b" "A" 10 20 "2026-01-05"
        [⟨some ScanKind.checkIn, 86100000, "s1", "Site One", "a@b", false⟩,
         ⟨some ScanKind.checkOut, 119400000, "s1", "Site One", "a@b", false⟩]).amountRM =
          some (round2 (round2 (min t 9) * 10 +
            otHoursOf DEFAULT_BUFFER_SETTINGS
              [⟨some ScanKind.checkIn, 86100000, "s1", "Site One", "a@b", false⟩,
               ⟨some ScanKind.checkOut, 119400000, "s1", "Site One", "a@b", false⟩] * 20)) :=
  (abnormal_reasons_gate_payroll DEFAULT_BUFFER_SETTINGS "u1" "a@b" "A" 10 20 "2026-01-05"
      [⟨some ScanKind.checkIn, 86100000, "s1", "Site One", "a@b", false⟩,
       ⟨some ScanKind.checkOut, 119400000, "s1", "Site One", "a@b", false⟩] _ rfl).2.2
    (by with_unfolding_all decide)

/-- C10: whenever the persisted amount is non-null, normalHours is
exactly 9 — a known totalHours below 9 is itself an abnormal reason that
nulls all pay fields, so min(totalHours, 9) evaluates to 9 and
amount = round2(9·normalRate + otHours·otRate). -/
theorem paid_normal_hours_eq_nine (cfg : BufferSettings) (uid em nm : String)
    (nr otr : ℚ) (dk : String) (logs : List ScanLog) (s : Session)
    (hs : s = sessionCore cfg uid em nm nr otr dk logs) :
    ∀ a : ℚ, s.amountRM = some a →
      s.normalHours = some 9 ∧
      ∃ oh : ℚ, s.otHours = some oh ∧ a = round2 (9 * nr + oh * otr) := by
  subst hs
  intro a ha
  have hnil : abnormalReasonsOf cfg logs = [] := by
    by_contra hne
    have hnone : amountRMOf cfg nr otr logs = none := amountRMOf_none_iff.mpr hne
    change amountRMOf cfg nr otr logs = some a at ha
    rw [hnone] at ha
    exact Option.noConfusion ha
  obtain ⟨i, o, hci, hco, t, ht, h9⟩ := reasons_nil_facts hnil
  have hmin : min t 9 = 9 := min_eq_right h9
  have hnh : normalHoursOf cfg logs = some 9 := by
    rw [normalHoursOf_of_nil hnil ht, hmin, round2_nine]
  refine ⟨hnh, otHoursOf cfg logs, otHoursRoundedOf_of_nil hnil, ?_⟩
  change amountRMOf cfg nr otr logs = some a at ha
  unfold amountRMOf at ha
  rw [normalHoursOf_of_nil hnil ht, otHoursRoundedOf_of_nil hnil, hmin, round2_nine] at ha
  simp [isAbnormalOf_false_of_nil hnil] at ha
  exact ha.symm

/-- Witness for C10: the normal 9.25-hour day with rates 10/20 pays
amount 90 with normalHours exactly 9. -/
theorem paid_normal_hours_eq_nine_witness :
    (sessionCore DEFAULT_BUFFER_SETTINGS "u1" "a@b" "A" 10 20 "2026-01-05"
      [⟨some ScanKind.checkIn, 86100000, "s1", "Site One", "a@b", false⟩,
       ⟨some ScanKind.checkOut, 119400000, "s1", "Site One", "a@b", false⟩]).normalHours =
        some 9 ∧
    ∃ oh : ℚ,
      (sessionCore DEFAULT_BUFFER_SETTINGS "u1" "a@b" "A" 10 20 "2026-01-05"
        [⟨some ScanKind.checkIn, 86100000, "s1", "Site One", "a@b", false⟩,
         ⟨some ScanKind.checkOut, 119400000, "s1", "Site One", "a@b", false⟩]).otHours =
          some oh ∧
      (90 : ℚ) = round2 (9 * 10 + oh * 20) :=
  paid_normal_hours_eq_nine DEFAULT_BUFFER_SETTINGS "u1" "a@b" "A" 10 20 "2026-01-05"
    [⟨some ScanKind.checkIn, 86100000, "s1", "Site One", "a@b", false⟩,
     ⟨some ScanKind.checkOut, 119400000, "s1", "Site One", "a@b", false⟩] _ rfl
    90 (by with_unfolding_all decide)

end TTL

namespace TTL

lemma map_scanType_getD_id {logs : List ScanLog} (h : ∀ l ∈ logs, l.scanType ≠ none) :
    logs.map (fun l => { l with scanType := some (l.scanType.getD ScanKind.checkIn) }) =
      logs := by
  induction logs with
  | nil => rfl
  | cons x xs ih =>
      have hx := h x (List.mem_cons_self x xs)
      have hxs := ih (fun l hl => h l (List.mem_cons_of_mem x hl))
      cases x with
      | mk st ms si sn ue d =>
          cases st with
          | none => exact absurd rfl hx
          | some k => simp [hxs]

lemma sortByTime_eq_self {logs : List ScanLog}
    (h : logs.Pairwise (fun a b => a.scanTimeMs ≤ b.scanTimeMs)) :
    sortByTime logs = logs := by
  induction logs with
  | nil => rfl
  | cons x xs ih =>
      rw [sortByTime, ih h.of_cons]
      cases xs with
      | nil => rfl
      | cons y ys =>
          have hxy : x.scanTimeMs ≤ y.scanTimeMs :=
            (List.pairwise_cons.mp h).1 y (List.mem_cons_self y ys)
          simp [insertByTime, hxy]

/-- C5 counterexample: on an event whose `scanType` field is missing, the
two call sites diverge — the per-scan rebuild ignores the event (it is in
neither the check-in nor the check-out subset), while the range recompute
defaults it to a check-in at grouping time.  Same events, same buffer
config, same user name/email/rates on both sides. -/
theorem rebuild_recompute_divergence :
    rebuildSessionForDay ⟨some "A", "a@b", some 10, some 20⟩ "u1" "2026-01-05"
        DEFAULT_BUFFER_SETTINGS
        [⟨none, 86100000, "s1", "Site One", "a@b", false⟩] ≠
      recomputeSessionForKey (some ⟨some "A", "a@b", some 10, some 20⟩) "u1" "2026-01-05"
        DEFAULT_BUFFER_SETTINGS
        [⟨none, 86100000, "s1", "Site One", "a@b", false⟩] := by
  intro h
  exact absurd (congrArg Session.checkInTime h) (by decide)

/-- C5 (amended): provided every event carries an explicit scan kind (and
events are taken in ascending scan-time order, as both call sites fetch
them), the per-scan rebuild and the per-key range recompute build
identical session records from the same events, buffer config, and user
name, email and pay rates. -/
theorem rebuild_recompute_agree (p : UserProfile) (uid dk : String)
    (cfg : BufferSettings) (logs : List ScanLog)
    (hkind : ∀ l ∈ logs, l.scanType ≠ none)
    (hsorted : logs.Pairwise (fun a b => a.scanTimeMs ≤ b.scanTimeMs)) :
    rebuildSessionForDay p uid dk cfg logs =
      recomputeSessionForKey (some p) uid dk cfg logs := by
  unfold rebuildSessionForDay recomputeSessionForKey
  have hmap : (logs.filter (fun l => !l.isDeleted)).map
      (fun l => { l with scanType := some (l.scanType.getD ScanKind.checkIn) }) =
      logs.filter (fun l => !l.isDeleted) :=
    map_scanType_getD_id (fun l hl => hkind l (List.mem_of_mem_filter hl))
  have hsort : sortByTime (logs.filter (fun l => !l.isDeleted)) =
      logs.filter (fun l => !l.isDeleted) :=
    sortByTime_eq_self (hsorted.filter _)
  simp only [hmap, hsort]
  rfl

/-- Witness for C5 (amended): a concrete sorted two-event day on which
both call sites build the same session. -/
theorem rebuild_recompute_agree_witness :
    rebuildSessionForDay ⟨some "A", "a@b", some 10, some 20⟩ "u1" "2026-01-05"
        DEFAULT_BUFFER_SETTINGS
        [⟨some ScanKind.checkIn, 86100000, "s1", "Site One", "a@b", false⟩,
         ⟨some ScanKind.checkOut, 119400000, "s1", "Site One", "a@b", false⟩] =
      recomputeSessionForKey (some ⟨some "A", "a@b", some 10, some 20⟩) "u1" "2026-01-05"
        DEFAULT_BUFFER_SETTINGS
        [⟨some ScanKind.checkIn, 86100000, "s1", "Site One", "a@b", false⟩,
         ⟨some ScanKind.checkOut, 119400000, "s1", "Site One", "a@b", false⟩] :=
  rebuild_recompute_agree ⟨some "A", "a@b", some 10, some 20⟩ "u1" "2026-01-05"
    DEFAULT_BUFFER_SETTINGS
    [⟨some ScanKind.checkIn, 86100000, "s1", "Site One", "a@b", false⟩,
     ⟨some ScanKind.checkOut, 119400000, "s1", "Site One", "a@b", false⟩]
    (by decide) (by decide)

/-- C7 counterexample: the toggle query is capped at the ten most recent
logs (`limit(10)`); with the ten most recent logs all soft-deleted and an
older non-deleted check-in underneath, the most recent non-deleted
successful log is a check-in, so the claim mandates `check-out`, but the
code computes `check-in`. -/
theorem toggle_beyond_limit_divergence :
    decideScanType
        (List.replicate 10 (⟨some ScanKind.checkOut, 100, "s1", "Site One", "a@b", true⟩ : ScanLog) ++
          [(⟨some ScanKind.checkIn, 0, "s1", "Site One", "a@b", false⟩ : ScanLog)]) =
      ScanKind.checkIn ∧
    List.find? (fun l => !l.isDeleted)
        (List.replicate 10 (⟨some ScanKind.checkOut, 100, "s1", "Site One", "a@b", true⟩ : ScanLog) ++
          [(⟨some ScanKind.checkIn, 0, "s1", "Site One", "a@b", false⟩ : ScanLog)]) =
      some (⟨some ScanKind.checkIn, 0, "s1", "Site One", "a@b", false⟩ : ScanLog) := by
  refine ⟨by decide, by decide⟩

/-- C7 (amended): the computed kind is `check-in` iff, among the ten most
recent success logs of (user, site, dateKey), no non-deleted one exists
or the most recent non-deleted one is a `check-out` (a missing scan kind
counting as `check-in`); otherwise the kind is `check-out`. -/
theorem toggle_rule (logsDesc : List ScanLog) :
    (decideScanType logsDesc = ScanKind.checkIn ↔
      ∀ l : ScanLog, (logsDesc.take 10).find? (fun l => !l.isDeleted) = some l →
        l.scanType.getD ScanKind.checkIn = ScanKind.checkOut) ∧
    (decideScanType logsDesc = ScanKind.checkOut ↔
      ∃ l : ScanLog, (logsDesc.take 10).find? (fun l => !l.isDeleted) = some l ∧
        l.scanType.getD ScanKind.checkIn ≠ ScanKind.checkOut) := by
  unfold decideScanType
  cases hf : (logsDesc.take 10).find? (fun l => !l.isDeleted) with
  | none => simp [hf]
  | some l =>
      by_cases hk : l.scanType.getD ScanKind.checkIn = ScanKind.checkOut
      · simp [hk]
      · simp [hk]

/-- Witness for C7 (amended), scenario E: prior successful events
[check-in, check-out] (descending: check-out first) yield a third scan
classified `check-in`. -/
theorem toggle_rule_witness :
    decideScanType
      [⟨some ScanKind.checkOut, 2, "s1", "Site One", "a@b", false⟩,
       ⟨some ScanKind.checkIn, 1, "s1", "Site One", "a@b", false⟩] = ScanKind.checkIn :=
  (toggle_rule _).1.mpr (by
    intro l hl
    rw [show (([⟨some ScanKind.checkOut, 2, "s1", "Site One", "a@b", false⟩,
          ⟨some ScanKind.checkIn, 1, "s1", "Site One", "a@b", false⟩] :
            List ScanLog).take 10).find? (fun l => !l.isDeleted) =
        some ⟨some ScanKind.checkOut, 2, "s1", "Site One", "a@b", false⟩ from by decide] at hl
    injection hl with h
    subst h
    decide)

/-- C8 counterexample: when the 15 s timeout fires while the site lookup
is in flight, the `if (cancelled) return` path exits before any log is
written — the invocation writes zero ScanEvents, not exactly one. -/
theorem scan_cancelled_writes_nothing :
    handleScanWrites
      { hasUserProfile := true, alreadyProcessing := false,
        rawValue := "Site One", cancelledDuringSiteQuery := true,
        siteLookup := some ⟨"s1", "Site One", 0, 0, 100⟩,
        geoOk := true, geoErrorMessage := "GPS position unavailable.",
        cancelledDuringGeolocation := false, measuredDistance := 0,
        cancelledDuringDailyQuery := false, dailyLogsDesc := [],
        successWriteOk := true, storageErrorMessage := "write failed",
        failLogWriteOk := true } = [] := by
  with_unfolding_all decide

set_option maxHeartbeats 1000000 in
/-- C8 (amended): every invocation writes at most one ScanEvent; it
writes exactly one on every call in which no timeout cancellation
interrupts an awaited step and the failure-log write itself succeeds (the
first failing step remains terminal — no retries); and when all checks
pass the single event is the success event with the toggled kind. -/
theorem scan_writes_bound (env : ScanEnv) :
    (handleScanWrites env).length ≤ 1 ∧
    (env.hasUserProfile = true → env.alreadyProcessing = false →
      env.cancelledDuringSiteQuery = false → env.cancelledDuringGeolocation = false →
      env.cancelledDuringDailyQuery = false → env.failLogWriteOk = true →
      (handleScanWrites env).length = 1) ∧
    (∀ site : SiteItem, env.hasUserProfile = true → env.alreadyProcessing = false →
      normalizeSiteName env.rawValue ≠ "" → env.cancelledDuringSiteQuery = false →
      env.siteLookup = some site → env.geoOk = true →
      env.cancelledDuringGeolocation = false →
      env.measuredDistance ≤ site.allowedRadiusMeters →
      env.cancelledDuringDailyQuery = false → env.successWriteOk = true →
      handleScanWrites env =
        [WrittenEvent.successEvent (decideScanType env.dailyLogsDesc) site
          env.measuredDistance]) := by
  refine ⟨?_, ?_, ?_⟩
  · unfold handleScanWrites failWrites
    repeat' split <;> (try simp_all)
  · intro h1 h2 h3 h4 h5 h6
    unfold handleScanWrites failWrites
    rw [h1, h2, h3, h4, h5, h6]
    repeat' split <;> (try simp_all)
  · intro site h1 h2 h3 h4 h5 h6 h7 h8 h9 h10
    unfold handleScanWrites
    rw [h1, h2, h4, h5, h6, h7, h9, h10]
    simp [h3, not_lt.mpr h8]

/-- Witness for C8 (amended): a concrete invocation with no cancellation
and a working log store writes exactly one event. -/
theorem scan_writes_bound_witness :
    (handleScanWrites
      { hasUserProfile := true, alreadyProcessing := false,
        rawValue := "Site One", cancelledDuringSiteQuery := false,
        siteLookup := none,
        geoOk := true, geoErrorMessage := "GPS position unavailable.",
        cancelledDuringGeolocation := false, measuredDistance := 0,
        cancelledDuringDailyQuery := false, dailyLogsDesc := [],
        successWriteOk := true, storageErrorMessage := "write failed",
        failLogWriteOk := true }).length = 1 :=
  (scan_writes_bound _).2.1 rfl rfl rfl rfl rfl rfl

/-- C9 counterexample: the read operation keeps any stored number as-is —
a stored `lateBufferMinutes` of −3 is returned unchanged, so the result
is not a non-negative integer as claimed (a fractional value such as 2.5,
accepted by the admin settings form, is returned unchanged as well). -/
theorem buffer_settings_negative_value :
    (getBufferSettings ⟨some (JsVal.num (-3)), none, none, none⟩).lateBufferMinutes = -3 ∧
    ¬ (0 : ℚ) ≤ (getBufferSettings
        ⟨some (JsVal.num (-3)), none, none, none⟩).lateBufferMinutes := by
  exact ⟨rfl, by with_unfolding_all decide⟩

lemma normalizeSetting_num {v : Option JsVal} {q fb : ℚ}
    (h : v = some (JsVal.num q)) : normalizeSetting v fb = q := by
  subst h
  rfl

lemma normalizeSetting_default {v : Option JsVal} {fb : ℚ}
    (h : ∀ q : ℚ, v ≠ some (JsVal.num q)) : normalizeSetting v fb = fb := by
  unfold normalizeSetting
  cases v with
  | none => rfl
  | some w =>
      cases w with
      | num q => exact absurd rfl (h q)
      | nan => rfl
      | nonNumber => rfl

/-- C9 (amended): the read never surfaces malformed configuration as an
error — each field equals the stored value whenever that value is a
number (even negative or fractional), and the fixed default (late 5,
early-checkout 5, OT-early 15, OT-late 60) whenever the field is missing
or non-numeric. -/
theorem buffer_settings_rule (data : RawSettings) :
    (∀ q : ℚ, data.lateBufferMinutes = some (JsVal.num q) →
      (getBufferSettings data).lateBufferMinutes = q) ∧
    ((∀ q : ℚ, data.lateBufferMinutes ≠ some (JsVal.num q)) →
      (getBufferSettings data).lateBufferMinutes = 5) ∧
    (∀ q : ℚ, data.earlyCheckoutBufferMinutes = some (JsVal.num q) →
      (getBufferSettings data).earlyCheckoutBufferMinutes = q) ∧
    ((∀ q : ℚ, data.earlyCheckoutBufferMinutes ≠ some (JsVal.num q)) →
      (getBufferSettings data).earlyCheckoutBufferMinutes = 5) ∧
    (∀ q : ℚ, data.otEarlyBufferMinutes = some (JsVal.num q) →
      (getBufferSettings data).otEarlyBufferMinutes = q) ∧
    ((∀ q : ℚ, data.otEarlyBufferMinutes ≠ some (JsVal.num q)) →
      (getBufferSettings data).otEarlyBufferMinutes = 15) ∧
    (∀ q : ℚ, data.otLateBufferMinutes = some (JsVal.num q) →
      (getBufferSettings data).otLateBufferMinutes = q) ∧
    ((∀ q : ℚ, data.otLateBufferMinutes ≠ some (JsVal.num q)) →
      (getBufferSettings data).otLateBufferMinutes = 60) := by
  refine ⟨?_, ?_, ?_, ?_, ?_, ?_, ?_, ?_⟩
  · intro q h
    exact normalizeSetting_num h
  · intro h
    exact normalizeSetting_default h
  · intro q h
    exact normalizeSetting_num h
  · intro h
    exact normalizeSetting_default h
  · intro q h
    exact normalizeSetting_num h
  · intro h
    exact normalizeSetting_default h
  · intro q h
    exact normalizeSetting_num h
  · intro h
    exact normalizeSetting_default h

/-- Witness for C9 (amended): a document with one numeric field (7), one
missing field and two non-numeric fields reads back as (7, 5, 15, 60). -/
theorem buffer_settings_rule_witness :
    (getBufferSettings
      ⟨some (JsVal.num 7), none, some JsVal.nan, some JsVal.nonNumber⟩).lateBufferMinutes = 7 ∧
    (getBufferSettings
      ⟨some (JsVal.num 7), none, some JsVal.nan,
        some JsVal.nonNumber⟩).earlyCheckoutBufferMinutes = 5 ∧
    (getBufferSettings
      ⟨some (JsVal.num 7), none, some JsVal.nan,
        some JsVal.nonNumber⟩).otEarlyBufferMinutes = 15 ∧
    (getBufferSettings
      ⟨some (JsVal.num 7), none, some JsVal.nan,
        some JsVal.nonNumber⟩).otLateBufferMinutes = 60 :=
  ⟨(buffer_settings_rule _).1 7 rfl,
   (buffer_settings_rule _).2.2.2.1 (fun q h => Option.noConfusion h),
   (buffer_settings_rule _).2.2.2.2.2.1 (by intro q h; simp at h),
   (buffer_settings_rule _).2.2.2.2.2.2.2 (by intro q h; simp at h)⟩

end TTL
